import Mathlib

/-!
Verification of the WhatsApp chat-bot backend (`app.py`, `bot.py`, `db_ui.py`,
`google_tools.py`) against its natural-language specification.

The Python code is shallowly embedded: pure fragments become Lean functions,
the effect of each external library call (HTTP body parsing, the LangChain
agent invocation, the Google API calls) is a parameter of the embedding, and
Python exceptions are modelled with `Option`/`Except` (a `none`/`.error`
marks the point at which the corresponding Python expression raises).
-/

namespace ChatBot

/-- JSON values, as produced by Python's `json.loads` / Starlette's
`request.json()`.  Numbers are modelled as integers (no claim depends on
a fractional value); objects are association lists with string keys, as
`json.loads` always yields string-keyed dicts. -/
inductive Json where
  | null : Json
  | bool : Bool → Json
  | num : Int → Json
  | str : String → Json
  | arr : List Json → Json
  | obj : List (String × Json) → Json

/-- First value bound to a key in a string-keyed association list
(Python dict lookup; dicts have no duplicate keys). -/
def lookupField : List (String × Json) → String → Option Json
  | [], _ => none
  | (k, v) :: fs, key => if k = key then some v else lookupField fs key

/-- Python `d[k]` for a string key `k`: a value on a dict holding the key,
an exception (`none`) on a dict missing it, and a `TypeError`/`KeyError`
(`none`) on every non-dict value. -/
def Json.idx (j : Json) (k : String) : Option Json :=
  match j with
  | .obj fs => lookupField fs k
  | _ => none

/-- Python `l[i]` for a non-negative integer index: a value on a long-enough
list, an `IndexError` (`none`) on a short list, and a `TypeError`/`KeyError`
(`none`) on every non-list value. -/
def Json.atIdx (j : Json) (i : Nat) : Option Json :=
  match j with
  | .arr xs => xs.get? i
  | _ => none

/-!
## Webhook gateway (`app.py`)
-/

/-- Outcome of `GET /webhook` (`verify_webhook`): `ok body` is
`PlainTextResponse(content=body, status_code=200)` (the content is the
optional `hub.challenge` query parameter), `forbidden` is
`HTTPException(status_code=403, detail="Verification Failed")`. -/
inductive VerifyResult where
  | ok : Option String → VerifyResult
  | forbidden : VerifyResult

/-- Function `verify_webhook` from `app.py`.  `verifyToken` is the configured
`VERIFY_TOKEN = os.getenv("META_VERIFY_TOKEN")` (an absent environment
variable is `none`); `mode`, `token` and `challenge` are the optional
query parameters `hub.mode`, `hub.verify_token` and `hub.challenge`
(`params.get` returns `None`, i.e. `none`, for an absent parameter). -/
def verify_webhook (verifyToken : Option String)
    (mode token challenge : Option String) : VerifyResult :=
  if mode = some "subscribe" ∧ token = verifyToken then
    .ok challenge
  else
    .forbidden

/-- The fixed acknowledgment payload `{"status": "received"}` returned by
`webhook_handler`. -/
def ackPayload : Json := .obj [("status", .str "received")]

/-- The navigation inside `webhook_handler`'s `try` block:
`entry = data['entry'][0]['changes'][0]['value']`, then, when
`'messages' in entry` and the first message has a `'text'` field,
the background-task arguments `(msg['from'], msg['text']['body'])`.
Every Python exception raised inside the `try` block and every failed
membership test alike yield no task (`none`): both end with the handler
scheduling nothing, so they are indistinguishable in the handler's
result.  (For a non-dict value, a true `in` test is followed by a
string-keyed access that raises, so `Json.idx` returning `none` on
non-dicts covers the `in`-then-access compound faithfully.) -/
def extract_task (data : Json) : Option (Json × Json) := do
  let e1 ← data.idx "entry"
  let e2 ← e1.atIdx 0
  let e3 ← e2.idx "changes"
  let e4 ← e3.atIdx 0
  let entry ← e4.idx "value"
  let msgs ← entry.idx "messages"
  let msg ← msgs.atIdx 0
  let textObj ← msg.idx "text"
  let body ← textObj.idx "body"
  let sender ← msg.idx "from"
  pure (sender, body)

/-- Result of a `POST /webhook` request that `webhook_handler` answers:
the response body together with the background task scheduled, if any. -/
structure HandlerResult where
  body : Json
  task : Option (Json × Json)

/-- Outcome of `POST /webhook`: either the handler returns a response, or
an exception escapes the handler (no acknowledgment is produced). -/
inductive HandlerOutcome where
  | ok : HandlerResult → HandlerOutcome
  | raised : HandlerOutcome

/-- Function `webhook_handler` from `app.py`.  The argument is the outcome of
`data = await request.json()`: `some data` when the request body parses
as JSON, `none` when parsing raises.  The parse happens on line 193,
*before* the `try:` on line 194, so a parse failure propagates out of
the handler; everything inside the `try` block is swallowed by
`except Exception` and the handler returns `{"status": "received"}`. -/
def webhook_handler (parsed : Option Json) : HandlerOutcome :=
  match parsed with
  | none => .raised
  | some data => .ok ⟨ackPayload, extract_task data⟩

/-!
## Conversation store (`db_ui.py`)
-/

/-- Python truthiness of a JSON value (`if content:`, `if row[0]`):
`None`, `False`, `0`, `""`, `[]` and `{}` are falsy. -/
def Json.truthy : Json → Bool
  | .null => false
  | .bool b => b
  | .num n => n ≠ 0
  | .str s => s ≠ ""
  | .arr xs => !xs.isEmpty
  | .obj fs => !fs.isEmpty

/-- One row of the `message_store` table created by `init_db`:
`id INTEGER PRIMARY KEY AUTOINCREMENT, session_id TEXT, message TEXT`.
The `message` column holds a text blob that `get_chat_history_for_ui`
feeds to `json.loads`; the blob is modelled by that parse's outcome —
`none` when the text is not valid JSON (the parse raises), `some j`
when it parses to `j`. -/
structure MessageRow where
  id : Nat
  session_id : String
  message : Option Json

/-- The backing SQLite database file `memory.db`: `none` when the file
does not exist (`os.path.exists(DB_FILE)` is false), `some rows` when it
holds the rows of `message_store`. -/
def Store : Type := Option (List MessageRow)

/-- Insert a row into an id-sorted list, keeping ids ascending
(auxiliary for `sortById`). -/
def insertById (r : MessageRow) : List MessageRow → List MessageRow
  | [] => [r]
  | x :: xs => if r.id ≤ x.id then r :: x :: xs else x :: insertById r xs

/-- Sorting step `ORDER BY id ASC` of the SQL query in `get_chat_history_for_ui`:
sort rows by the autoincrement primary key. -/
def sortById : List MessageRow → List MessageRow
  | [] => []
  | x :: xs => insertById x (sortById xs)

/-- One decoded entry of the history returned to the UI:
`{"type": msg_type, "text": content}`.  Both fields are whatever JSON
values the blob carried (`msg_data.get('type', 'unknown')` and the
selected content are not coerced to strings by the code). -/
structure ChatEntry where
  type : Json
  text : Json

/-- The compound `'content' in msg_data['data']` followed by
`content = msg_data['data']['content']`, evaluated on the value bound to
`'data'`: `.ok (some c)` when the membership test succeeds and the access
yields `c`; `.ok none` when the membership test is false (the `elif`
chain continues); `.error ()` when the test or the access raises
(`in` on a number/bool/`None` is a `TypeError`; on a list or string a
true test is followed by `['content']`, which raises). -/
def dataContent : Json → Except Unit (Option Json)
  | .obj fs => .ok (lookupField fs "content")
  | .arr xs =>
      if xs.any (fun x => match x with | .str s => s = "content" | _ => false) then
        .error ()
      else .ok none
  | .str s =>
      if (s.splitOn "content").length ≥ 2 then .error () else .ok none
  | _ => .error ()

/-- The `elif 'content' in msg_data: ... elif 'kwargs' in msg_data: ...`
chain of `get_chat_history_for_ui`, run when the `data` branch was not
taken: the entry kept, or `none` when the selected content is falsy,
no shape matches, or an access raises (`.get` on a non-dict `kwargs`
value is an `AttributeError`, swallowed by the inner `except`). -/
def contentOrKwargs (fs : List (String × Json)) (msgType : Json) : Option ChatEntry :=
  match lookupField fs "content" with
  | some c => if c.truthy then some ⟨msgType, c⟩ else none
  | none =>
    match lookupField fs "kwargs" with
    | some (.obj kfs) =>
        let c := (lookupField kfs "content").getD (.str "")
        if c.truthy then some ⟨msgType, c⟩ else none
    | some _ => none
    | none => none

/-- Decoding of one stored row by the loop body of
`get_chat_history_for_ui`: `none` when the entry is skipped (unparseable
JSON, a non-dict top level — `.get` raises `AttributeError` —, an
exception inside a shape test, a matching shape with falsy content, or
no matching shape), `some e` when `{"type": .., "text": ..}` is appended. -/
def decodeRow (parsed : Option Json) : Option ChatEntry :=
  match parsed with
  | none => none
  | some (.obj fs) =>
    let msgType := (lookupField fs "type").getD (.str "unknown")
    match lookupField fs "data" with
    | some dval =>
        match dataContent dval with
        | .error _ => none
        | .ok (some c) => if c.truthy then some ⟨msgType, c⟩ else none
        | .ok none => contentOrKwargs fs msgType
    | none => contentOrKwargs fs msgType
  | some _ => none

/-- Function `get_chat_history_for_ui` from `db_ui.py`: on a missing database file
return `[]`; otherwise `SELECT message FROM message_store WHERE
session_id = ? ORDER BY id ASC` and decode each row, skipping the
undecodable ones. -/
def get_chat_history_for_ui (store : Store) (session_id : String) : List ChatEntry :=
  match store with
  | none => []
  | some rows =>
      (sortById (rows.filter (fun r => r.session_id = session_id))).filterMap
        (fun r => decodeRow r.message)

/-- The read `get_chat_history_for_ui` performs, with the state of the
backing store threaded through explicitly: the function only opens a
connection and `SELECT`s, so the store passes through unchanged. -/
def readHistory (store : Store) (session_id : String) :
    List ChatEntry × Store :=
  (get_chat_history_for_ui store session_id, store)

/-- Function `get_all_contacts_from_db` from `db_ui.py`: on a missing database
file return `[]`; otherwise `SELECT DISTINCT session_id FROM
message_store` and keep the truthy ids (`[row[0] for row in rows if
row[0]]`).  `DISTINCT` is modelled by `List.dedup` (SQL specifies no
row order for this query; only the underlying set and the absence of
duplicates matter to the callers). -/
def get_all_contacts_from_db (store : Store) : List String :=
  match store with
  | none => []
  | some rows => ((rows.map (fun r => r.session_id)).dedup).filter (fun s => s ≠ "")

/-!
## Agent orchestrator (`bot.py`)
-/

/-- Outcome of `agent_with_history.invoke({"input": ...}, config=...)`
in `process_ai_response`, a LangChain library call whose behaviour is a
parameter of the embedding: `ok resp` when the call returns the mapping
`resp`, `error` when any internal step (model invocation, tool
execution, history access) raises. -/
inductive InvokeOutcome where
  | ok : List (String × String) → InvokeOutcome
  | error : InvokeOutcome

/-- First value bound to a key in a string association list (Python dict
indexing on the agent's response mapping; `none` is a `KeyError`). -/
def lookupStr : List (String × String) → String → Option String
  | [], _ => none
  | (k, v) :: fs, key => if k = key then some v else lookupStr fs key

/-- The fixed user-safe apology returned by `process_ai_response` when
its `try` block raises. -/
def fallbackText : String := "I'm sorry, I encountered an internal error. Please try again."

/-- Function `process_ai_response` from `bot.py`.  `user_input` and `user_phone`
are passed to the agent invocation, whose outcome is `outcome`; the whole
invocation *and* the `response["output"]` access sit inside the `try`
block, so a missing `"output"` key also degrades to the fallback. -/
def process_ai_response (user_input user_phone : String)
    (outcome : InvokeOutcome) : String :=
  match user_input, user_phone, outcome with
  | _, _, .ok resp =>
      match lookupStr resp "output" with
      | some out => out
      | none => fallbackText
  | _, _, .error => fallbackText

/-!
## Tool capability provider (`google_tools.py`)
-/

/-- The fields of a `google.oauth2.credentials.Credentials` object that
`get_creds` inspects: `valid`, `expired`, and whether a refresh token is
present (`creds.refresh_token` truthy). -/
structure Creds where
  valid : Bool
  expired : Bool
  refresh_token : Bool

/-- The environment a tool call runs against.  `tokenExists` is
`os.path.exists('token.json')`; `fileCreds` is the outcome of
`Credentials.from_authorized_user_file('token.json', SCOPES)` when the
file exists — `.ok` the parsed credentials, `.error` the exception it
raises on a malformed token file (the call sits outside every `try`
block, so that exception propagates); `refreshOk` is whether
`creds.refresh(Request())` succeeds; `sheetId` is
`os.getenv("GOOGLE_SHEET_ID")`.  The three `*Api` fields are the
outcomes of the Google API calls inside each tool's `try` block: `.ok`
carries the success data (the event's printed `htmlLink`, unit for
Gmail, the printed `updatedCells` count for Sheets) and `.error`
carries `str(e)` of the exception raised. -/
structure GoogleEnv where
  tokenExists : Bool
  fileCreds : Except String Creds
  refreshOk : Bool
  sheetId : Option String
  calendarApi : Except String String
  gmailApi : Except String Unit
  sheetsApi : Except String String

/-- The refresh logic of `get_creds` applied to successfully parsed
credentials: when they are invalid, attempt one silent refresh if they
are expired and refreshable — `none` on a failed refresh, the (possibly
still invalid) credentials otherwise. -/
def refreshStep (refreshOk : Bool) (c : Creds) : Option Creds :=
  if !c.valid then
    if c.expired && c.refresh_token then
      if refreshOk then
        some { valid := true, expired := false, refresh_token := c.refresh_token }
      else none
    else some c
  else some c

/-- Function `get_creds` from `google_tools.py`: when `token.json` is
absent, return `None` without touching it; when it is present, parse it
with `Credentials.from_authorized_user_file` — a call with no exception
handling around it, so a parse failure (`.error`) propagates out of
`get_creds` — and run the refresh logic on the parsed credentials. -/
def get_creds (env : GoogleEnv) : Except String (Option Creds) :=
  if env.tokenExists then
    match env.fileCreds with
    | .error e => .error e
    | .ok c => .ok (refreshStep env.refreshOk c)
  else .ok none

/-- The error string every tool returns when `get_creds` yields `None`. -/
def tokenInvalidText : String := "❌ Error: Google Token is invalid."

/-- Function `add_calendar_event` from `google_tools.py`.  The result is
`.ok` with the returned string, or `.error` when an exception escapes
the capability: `creds = get_creds()` runs *before* the `try` block, so
a raising credential parse propagates.  The optional attendee email
only shapes the request body, not the result string, and is omitted;
the API call's outcome is `env.calendarApi`. -/
def add_calendar_event (env : GoogleEnv)
    (summary start_time end_time : String) : Except String String :=
  match summary, start_time, end_time, get_creds env with
  | _, _, _, .error e => .error e
  | _, _, _, .ok none => .ok tokenInvalidText
  | _, _, _, .ok (some _) =>
      match env.calendarApi with
      | .ok link => .ok ("✅ Event created successfully: " ++ link)
      | .error e => .ok ("❌ Failed to create event: " ++ e)

/-- Function `send_gmail` from `google_tools.py` (`toAddr` is the source's `to`
parameter, a reserved token in Lean); `get_creds` again runs before the
`try`, so its parse failure propagates (`.error`). -/
def send_gmail (env : GoogleEnv) (toAddr subject body : String) : Except String String :=
  match subject, body, get_creds env with
  | _, _, .error e => .error e
  | _, _, .ok none => .ok tokenInvalidText
  | _, _, .ok (some _) =>
      match env.gmailApi with
      | .ok _ => .ok ("✅ Email sent successfully to " ++ toAddr)
      | .error e => .ok ("❌ Failed to send email: " ++ e)

/-- Function `add_expense_row` from `google_tools.py`: checks `GOOGLE_SHEET_ID`
before the credentials, then calls `get_creds` (before the `try`, so a
parse failure propagates) and appends a row; `env.sheetsApi`'s success
value is the printed `updatedCells` count. -/
def add_expense_row (env : GoogleEnv) (date item amount : String) : Except String String :=
  match date, item, amount, env.sheetId with
  | _, _, _, none => .ok "❌ Error: GOOGLE_SHEET_ID is missing in .env file."
  | _, _, _, some _ =>
      match get_creds env with
      | .error e => .error e
      | .ok none => .ok tokenInvalidText
      | .ok (some _) =>
          match env.sheetsApi with
          | .ok n => .ok ("✅ Data logged to sheet. " ++ n ++ " cells updated.")
          | .error e => .ok ("❌ Failed to update sheet: " ++ e)

/-!
## Auxiliary definitions for the statements
-/

/-- The invariant the autoincrement primary key maintains on
`message_store`: row ids strictly increase in insertion order (each
`INSERT` receives an id larger than every id already in the table). -/
abbrev IdSorted (rows : List MessageRow) : Prop :=
  rows.Pairwise (fun a b => a.id < b.id)

/-- The decode rule as the specification words it, for comparison with
the code's `decodeRow`: try the shapes `data.content`, `content`,
`kwargs.content` in this fixed order and use the first one that yields
non-empty (truthy) text. -/
def decodeRowSpec (parsed : Option Json) : Option ChatEntry :=
  match parsed with
  | none => none
  | some (.obj fs) =>
      let msgType := (lookupField fs "type").getD (.str "unknown")
      let shapes : List (Option Json) :=
        [(lookupField fs "data").bind (fun d => d.idx "content"),
         lookupField fs "content",
         (lookupField fs "kwargs").bind (fun k => k.idx "content")]
      match (shapes.filterMap id).find? (fun c => c.truthy) with
      | some c => some ⟨msgType, c⟩
      | none => none
  | some _ => none

/-- A stored message whose `data.content` shape is present but empty
while its `content` shape holds text: the code and the spec's decode
rule disagree here. -/
def emptyDataJson : Json :=
  .obj [("type", .str "ai"), ("data", .obj [("content", .str "")]),
        ("content", .str "hello")]

/-- A row whose `session_id` is the empty string (a truthiness-falsy
value that `get_all_contacts_from_db` filters out). -/
def emptySessionRow : MessageRow :=
  ⟨1, "", some (.obj [("type", .str "human"), ("content", .str "hi")])⟩

/-- Concrete decodable row used by witnesses. -/
def wrow1 : MessageRow :=
  ⟨1, "s", some (.obj [("type", .str "human"), ("content", .str "a")])⟩

/-- Concrete undecodable row (unparseable JSON blob) used by witnesses. -/
def wrowU : MessageRow := ⟨2, "s", none⟩

/-- Concrete decodable row used by witnesses. -/
def wrow3 : MessageRow :=
  ⟨3, "s", some (.obj [("type", .str "ai"), ("content", .str "b")])⟩

/-- The human-readable strings `add_calendar_event` can return. -/
def isCalendarResult (s : String) : Prop :=
  s = tokenInvalidText
  ∨ (∃ l, s = "✅ Event created successfully: " ++ l)
  ∨ (∃ e, s = "❌ Failed to create event: " ++ e)

/-- The human-readable strings `send_gmail` can return. -/
def isGmailResult (s : String) : Prop :=
  s = tokenInvalidText
  ∨ (∃ r, s = "✅ Email sent successfully to " ++ r)
  ∨ (∃ e, s = "❌ Failed to send email: " ++ e)

/-- The human-readable strings `add_expense_row` can return. -/
def isSheetsResult (s : String) : Prop :=
  s = "❌ Error: GOOGLE_SHEET_ID is missing in .env file."
  ∨ s = tokenInvalidText
  ∨ (∃ n, s = "✅ Data logged to sheet. " ++ n ++ " cells updated.")
  ∨ (∃ e, s = "❌ Failed to update sheet: " ++ e)

/-- Concrete environment with no `token.json`, used by witnesses. -/
def noTokenEnv : GoogleEnv :=
  ⟨false, .ok ⟨false, false, false⟩, false, some "sheet1",
   .error "x", .error "x", .error "x"⟩

/-- Concrete environment whose expired credentials fail their silent
refresh, used by witnesses. -/
def failedRefreshEnv : GoogleEnv :=
  ⟨true, .ok ⟨false, true, true⟩, false, some "sheet1",
   .error "x", .error "x", .error "x"⟩

/-- Concrete environment whose `token.json` exists but is malformed, so
`Credentials.from_authorized_user_file` raises while parsing it. -/
def malformedTokenEnv : GoogleEnv :=
  ⟨true, .error "Could not deserialize token data", false, some "sheet1",
   .error "x", .error "x", .error "x"⟩

/-!
## Theorems

### Webhook gateway
-/

/-- C2: `verify_webhook` succeeds exactly when the `hub.mode` parameter
is `"subscribe"` and the `hub.verify_token` parameter equals the
pre-shared secret; on success it echoes the `hub.challenge` parameter
verbatim as the plain-text 200 response, and on any mismatch it raises
the HTTP 403 rejection. -/
theorem verify_webhook_handshake (s : String) (mode token challenge : Option String) :
    (verify_webhook (some s) mode token challenge = .ok challenge ↔
      mode = some "subscribe" ∧ token = some s)
    ∧ (verify_webhook (some s) mode token challenge = .forbidden ↔
      ¬ (mode = some "subscribe" ∧ token = some s)) := by
  by_cases h : mode = some "subscribe" ∧ token = some s
  · simp [verify_webhook, h]
  · simp [verify_webhook, h]

/-- C10: when `META_VERIFY_TOKEN` is unset (`VERIFY_TOKEN = none`), a
handshake request with mode `"subscribe"` and no `hub.verify_token`
parameter succeeds and echoes its challenge, because `params.get`'s
`None` compares equal to the absent secret. -/
theorem verify_webhook_unset_secret (challenge : Option String) :
    verify_webhook none (some "subscribe") none challenge = .ok challenge := by
  simp [verify_webhook]

/-- C1 counterexample: a request body that is not valid JSON makes
`webhook_handler` raise — `data = await request.json()` runs before the
`try` block — so the handler does not return the acknowledgment for
*every* body. -/
theorem webhook_handler_nonjson_raises :
    webhook_handler none = HandlerOutcome.raised := rfl

/-- C1 (amended): for every request body that parses as JSON — whatever
its shape, fields missing or not — `webhook_handler` never raises and
returns the fixed acknowledgment payload `{"status": "received"}`. -/
theorem webhook_handler_acks_all_json (data : Json) :
    ∃ t, webhook_handler (some data) = HandlerOutcome.ok ⟨ackPayload, t⟩ :=
  ⟨extract_task data, rfl⟩

/-!
### Agent orchestrator
-/

/-- C3: `process_ai_response` is total (the embedding returns a string
for every invocation outcome — never raises); when the agent invocation
throws, it returns the fixed user-safe apology, and in every other case
it returns either the response's `"output"` value or, if that key is
missing, again the apology. -/
theorem process_ai_response_never_raises (inp phone : String) (outcome : InvokeOutcome) :
    (outcome = .error → process_ai_response inp phone outcome = fallbackText)
    ∧ (process_ai_response inp phone outcome = fallbackText ∨
        ∃ resp, outcome = .ok resp ∧
          lookupStr resp "output" = some (process_ai_response inp phone outcome)) := by
  cases outcome with
  | error => exact ⟨fun _ => rfl, Or.inl rfl⟩
  | ok resp =>
    refine ⟨fun h => (by cases h), ?_⟩
    cases hl : lookupStr resp "output" with
    | none => exact Or.inl (by simp [process_ai_response, hl])
    | some out => exact Or.inr ⟨resp, rfl, by simp [process_ai_response, hl]⟩

/-- Witness for C3: at a concrete session and input, a throwing
invocation yields exactly the apology text. -/
theorem process_ai_response_never_raises_witness :
    process_ai_response "hi" "923001234567" InvokeOutcome.error = fallbackText :=
  (process_ai_response_never_raises "hi" "923001234567" InvokeOutcome.error).1 rfl

/-!
### Conversation store
-/

/-- Sorting by id is the identity on rows whose ids already increase
in insertion order. -/
theorem sortById_of_idSorted : ∀ (l : List MessageRow), IdSorted l → sortById l = l := by
  intro l h
  induction l with
  | nil => rfl
  | cons x xs ih =>
    rw [sortById, ih (List.Pairwise.of_cons h)]
    cases xs with
    | nil => rfl
    | cons y ys =>
      have hxy : x.id < y.id := (List.pairwise_cons.mp h).1 y (by simp)
      simp [insertById, Nat.le_of_lt hxy]

/-- C6: reading a session's history never mutates the store, a second
read with no intervening append returns the identical sequence, and on
any store whose ids increase in insertion order (the autoincrement
invariant) the elements come back in exactly the order their rows were
appended — the insertion-order key, the only ordering the query uses. -/
theorem history_read_pure_and_ordered (rows : List MessageRow) (sid : String)
    (h : IdSorted rows) :
    (readHistory (some rows) sid).2 = some rows
    ∧ readHistory (readHistory (some rows) sid).2 sid = readHistory (some rows) sid
    ∧ (readHistory (some rows) sid).1 =
        (rows.filter (fun r => r.session_id = sid)).filterMap
          (fun r => decodeRow r.message) := by
  refine ⟨rfl, rfl, ?_⟩
  have hf : IdSorted (rows.filter (fun r => decide (r.session_id = sid))) :=
    h.sublist (List.filter_sublist rows)
  simp only [readHistory, get_chat_history_for_ui]
  rw [sortById_of_idSorted _ hf]

/-- Witness for C6: on a concrete three-row store the read leaves the
store unchanged and returns the rows in appended order. -/
theorem history_read_pure_and_ordered_witness :
    (readHistory (some [wrow1, wrowU, wrow3]) "s").2 = some [wrow1, wrowU, wrow3]
    ∧ (readHistory (some [wrow1, wrowU, wrow3]) "s").1 =
        ([wrow1, wrowU, wrow3].filter (fun r => r.session_id = "s")).filterMap
          (fun r => decodeRow r.message) :=
  ⟨(history_read_pure_and_ordered [wrow1, wrowU, wrow3] "s" (by decide)).1,
   (history_read_pure_and_ordered [wrow1, wrowU, wrow3] "s" (by decide)).2.2⟩

/-- C5: an undecodable row (unparseable JSON, or a shape matching none
of the known encodings — `decodeRow` yields `none`) is skipped silently:
the history of a log containing it equals the history of the same log
without it, the remaining entries unchanged in content and relative
order; the read is a total function, so it neither raises nor aborts. -/
theorem history_skips_undecodable (pre post : List MessageRow) (u : MessageRow)
    (sid : String) (hs : IdSorted (pre ++ u :: post))
    (hu : decodeRow u.message = none) :
    get_chat_history_for_ui (some (pre ++ u :: post)) sid =
      get_chat_history_for_ui (some (pre ++ post)) sid := by
  have sub : List.Sublist (pre ++ post) (pre ++ u :: post) :=
    (List.sublist_cons_self u post).append_left pre
  have hs2 : IdSorted (pre ++ post) := hs.sublist sub
  have hf1 : IdSorted ((pre ++ u :: post).filter (fun r => decide (r.session_id = sid))) :=
    hs.sublist (List.filter_sublist _)
  have hf2 : IdSorted ((pre ++ post).filter (fun r => decide (r.session_id = sid))) :=
    hs2.sublist (List.filter_sublist _)
  simp only [get_chat_history_for_ui]
  rw [sortById_of_idSorted _ hf1, sortById_of_idSorted _ hf2]
  rw [List.filter_append, List.filter_append, List.filter_cons]
  by_cases hc : u.session_id = sid
  · simp [hc, List.filterMap_append, List.filterMap_cons, hu]
  · simp [hc]

/-- Witness for C5: inserting a concrete unparseable row between two
decodable rows leaves the returned history unchanged. -/
theorem history_skips_undecodable_witness :
    get_chat_history_for_ui (some ([wrow1] ++ wrowU :: [wrow3])) "s" =
      get_chat_history_for_ui (some ([wrow1] ++ [wrow3])) "s" :=
  history_skips_undecodable [wrow1] [wrow3] wrowU "s" (by decide) rfl

/-- C7: when the database file does not exist, both the history read and
the session listing return the empty result instead of failing. -/
theorem uninitialized_store_empty (sid : String) :
    get_chat_history_for_ui none sid = [] ∧ get_all_contacts_from_db none = [] :=
  ⟨rfl, rfl⟩

/-- C9 counterexample: a store holding one message whose session id is
the empty string has a session with at least one message, yet
`get_all_contacts_from_db` omits it (`if row[0]` filters falsy ids), so
the listing is not exactly the set of session ids with a message. -/
theorem contacts_drop_empty_session_id :
    emptySessionRow.session_id = ""
    ∧ get_all_contacts_from_db (some [emptySessionRow]) = [] :=
  ⟨rfl, rfl⟩

/-- C9 (amended): `get_all_contacts_from_db` returns exactly the set of
distinct *non-empty* session ids that have at least one message in the
store, with no duplicates. -/
theorem contacts_distinct_nonempty (rows : List MessageRow) :
    (∀ s, s ∈ get_all_contacts_from_db (some rows) ↔
      s ≠ "" ∧ ∃ r ∈ rows, r.session_id = s)
    ∧ (get_all_contacts_from_db (some rows)).Nodup := by
  constructor
  · intro s
    simp only [get_all_contacts_from_db, List.mem_filter, List.mem_dedup,
      List.mem_map, decide_eq_true_eq]
    constructor
    · rintro ⟨⟨r, hr, hrs⟩, hne⟩
      exact ⟨hne, r, hr, hrs⟩
    · rintro ⟨hne, r, hr, hrs⟩
      exact ⟨⟨r, hr, hrs⟩, hne⟩
  · exact (List.nodup_dedup _).filter _

/-!
### Message decoding
-/

/-- C4 counterexample: on a message whose `data.content` shape is
present but empty while its `content` shape holds the non-empty text
`"hello"`, the code (`decodeRow`) drops the entry — it commits to the
first *present* shape — whereas the claimed rule (`decodeRowSpec`, first
shape yielding non-empty text) extracts `"hello"`. -/
theorem decode_first_present_not_first_nonempty :
    decodeRow (some emptyDataJson) = none
    ∧ decodeRowSpec (some emptyDataJson) = some ⟨.str "ai", .str "hello"⟩ :=
  ⟨rfl, rfl⟩

/-- C4 (amended): the decoder tries the shapes in the fixed order
`data.content`, then `content`, then `kwargs.content`, and commits to
the first shape that is *present*, keeping the entry only when that
shape's text is non-empty; in particular a message encoded under any
single supported shape with non-empty text has the same text extracted
regardless of which shape was used, and an earlier present shape
shadows a later one. -/
theorem decode_shape_order (t : String) (c c2 : Json) (h : c.truthy = true) :
    decodeRow (some (.obj [("type", .str t), ("data", .obj [("content", c)])]))
      = some ⟨.str t, c⟩
    ∧ decodeRow (some (.obj [("type", .str t), ("content", c)])) = some ⟨.str t, c⟩
    ∧ decodeRow (some (.obj [("type", .str t), ("kwargs", .obj [("content", c)])]))
      = some ⟨.str t, c⟩
    ∧ decodeRow (some (.obj [("type", .str t), ("data", .obj [("content", c)]),
        ("content", c2)])) = some ⟨.str t, c⟩
    ∧ decodeRow (some (.obj [("type", .str t), ("content", c),
        ("kwargs", .obj [("content", c2)])])) = some ⟨.str t, c⟩ := by
  refine ⟨?_, ?_, ?_, ?_, ?_⟩ <;>
    · show (if c.truthy = true then some (ChatEntry.mk (.str t) c) else none) =
        some (ChatEntry.mk (.str t) c)
      rw [if_pos h]

/-- Witness for C4: the three supported shapes all decode the concrete
non-empty payload `"x"` to the same entry. -/
theorem decode_shape_order_witness :
    decodeRow (some (.obj [("type", .str "ai"), ("data", .obj [("content", .str "x")])]))
      = some ⟨.str "ai", .str "x"⟩
    ∧ decodeRow (some (.obj [("type", .str "ai"), ("content", .str "x")]))
      = some ⟨.str "ai", .str "x"⟩
    ∧ decodeRow (some (.obj [("type", .str "ai"),
        ("kwargs", .obj [("content", .str "x")])])) = some ⟨.str "ai", .str "x"⟩ :=
  ⟨(decode_shape_order "ai" (.str "x") (.str "y") (by decide)).1,
   (decode_shape_order "ai" (.str "x") (.str "y") (by decide)).2.1,
   (decode_shape_order "ai" (.str "x") (.str "y") (by decide)).2.2.1⟩

/-!
### Tool capability provider
-/

/-- C8 counterexample: when `token.json` exists but is malformed,
`Credentials.from_authorized_user_file` raises inside `get_creds`, which
every capability calls *before* its `try` block — so on this concrete
environment all three capabilities propagate the exception instead of
returning a string, refuting the claim that they never raise. -/
theorem google_tools_malformed_token_raises :
    add_calendar_event malformedTokenEnv "m" "s" "e"
      = .error "Could not deserialize token data"
    ∧ send_gmail malformedTokenEnv "a" "b" "c"
      = .error "Could not deserialize token data"
    ∧ add_expense_row malformedTokenEnv "d" "i" "amt"
      = .error "Could not deserialize token data" :=
  ⟨rfl, rfl, rfl⟩

/-- C8 (amended): on every input and every environment in which
`token.json` is absent or parses successfully, each tool capability
returns one of its human-readable success or failure strings and never
raises; when no valid credential can be obtained because the token is
missing or the silent refresh of an expired credential fails,
`get_creds` yields `None` and each capability returns the fixed
unavailability error string instead of propagating the failure.  (A
malformed `token.json` is the one exception: its parse error escapes
every capability, see the counterexample.) -/
theorem google_tools_total_and_unavailable (env : GoogleEnv)
    (summary start_time end_time toAddr subject body date item amount : String)
    (hp : env.tokenExists = false ∨ ∃ c, env.fileCreds = .ok c) :
    (∃ s, add_calendar_event env summary start_time end_time = .ok s ∧ isCalendarResult s)
    ∧ (∃ s, send_gmail env toAddr subject body = .ok s ∧ isGmailResult s)
    ∧ (∃ s, add_expense_row env date item amount = .ok s ∧ isSheetsResult s)
    ∧ (env.tokenExists = false → get_creds env = .ok none)
    ∧ (∀ c, env.fileCreds = .ok c → c.valid = false → c.expired = true →
        c.refresh_token = true → env.refreshOk = false → get_creds env = .ok none)
    ∧ (get_creds env = .ok none →
        add_calendar_event env summary start_time end_time = .ok tokenInvalidText
        ∧ send_gmail env toAddr subject body = .ok tokenInvalidText
        ∧ (env.sheetId.isSome = true →
            add_expense_row env date item amount = .ok tokenInvalidText)) := by
  have hgc : ∃ r, get_creds env = .ok r := by
    rcases hp with h | ⟨c, hc⟩
    · exact ⟨none, by simp [get_creds, h]⟩
    · by_cases ht : env.tokenExists
      · exact ⟨refreshStep env.refreshOk c, by simp [get_creds, ht, hc]⟩
      · exact ⟨none, by simp [get_creds, ht]⟩
  obtain ⟨r, hr⟩ := hgc
  refine ⟨?_, ?_, ?_, ?_, ?_, ?_⟩
  · cases r with
    | none => exact ⟨tokenInvalidText, by simp [add_calendar_event, hr], Or.inl rfl⟩
    | some c =>
      cases ha : env.calendarApi with
      | ok l =>
          exact ⟨_, by simp [add_calendar_event, hr, ha], Or.inr (Or.inl ⟨l, rfl⟩)⟩
      | error e =>
          exact ⟨_, by simp [add_calendar_event, hr, ha], Or.inr (Or.inr ⟨e, rfl⟩)⟩
  · cases r with
    | none => exact ⟨tokenInvalidText, by simp [send_gmail, hr], Or.inl rfl⟩
    | some c =>
      cases ha : env.gmailApi with
      | ok u =>
          exact ⟨_, by simp [send_gmail, hr, ha], Or.inr (Or.inl ⟨toAddr, rfl⟩)⟩
      | error e =>
          exact ⟨_, by simp [send_gmail, hr, ha], Or.inr (Or.inr ⟨e, rfl⟩)⟩
  · cases hsid : env.sheetId with
    | none =>
        exact ⟨_, by simp [add_expense_row, hsid], Or.inl rfl⟩
    | some sheet =>
      cases r with
      | none =>
          exact ⟨tokenInvalidText, by simp [add_expense_row, hsid, hr],
            Or.inr (Or.inl rfl)⟩
      | some c =>
        cases ha : env.sheetsApi with
        | ok n =>
            exact ⟨_, by simp [add_expense_row, hsid, hr, ha],
              Or.inr (Or.inr (Or.inl ⟨n, rfl⟩))⟩
        | error e =>
            exact ⟨_, by simp [add_expense_row, hsid, hr, ha],
              Or.inr (Or.inr (Or.inr ⟨e, rfl⟩))⟩
  · intro h
    simp [get_creds, h]
  · intro c hc h2 h3 h4 h5
    by_cases ht : env.tokenExists
    · simp [get_creds, ht, hc, refreshStep, h2, h3, h4, h5]
    · simp [get_creds, ht]
  · intro hg
    refine ⟨by simp [add_calendar_event, hg], by simp [send_gmail, hg], ?_⟩
    intro hsid
    cases hv : env.sheetId with
    | none => rw [hv] at hsid; cases hsid
    | some sheet => simp [add_expense_row, hv, hg]

/-- Witness for C8: with no token file, and with an expired credential
whose refresh fails, each capability returns the fixed unavailability
string on concrete inputs. -/
theorem google_tools_total_and_unavailable_witness :
    get_creds noTokenEnv = .ok none
    ∧ add_calendar_event noTokenEnv "m" "s" "e" = .ok tokenInvalidText
    ∧ get_creds failedRefreshEnv = .ok none
    ∧ send_gmail failedRefreshEnv "a" "b" "c" = .ok tokenInvalidText
    ∧ add_expense_row failedRefreshEnv "d" "i" "amt" = .ok tokenInvalidText := by
  have h1 := google_tools_total_and_unavailable noTokenEnv
    "m" "s" "e" "a" "b" "c" "d" "i" "amt" (Or.inl rfl)
  have h2 := google_tools_total_and_unavailable failedRefreshEnv
    "m" "s" "e" "a" "b" "c" "d" "i" "amt" (Or.inr ⟨⟨false, true, true⟩, rfl⟩)
  have hg1 : get_creds noTokenEnv = .ok none := h1.2.2.2.1 rfl
  have hg2 : get_creds failedRefreshEnv = .ok none :=
    h2.2.2.2.2.1 ⟨false, true, true⟩ rfl rfl rfl rfl rfl
  exact ⟨hg1, (h1.2.2.2.2.2 hg1).1, hg2, (h2.2.2.2.2.2 hg2).2.1,
    (h2.2.2.2.2.2 hg2).2.2 rfl⟩

end ChatBot
